import Mathlib

/-
Shallow embedding of the Node/Express retail backend:
authentication (auth route), token helper (helper/helper.js),
authorization middleware (verifyToken / verifyRole), product creation
under a table lock (route/products.js), and the partial-update queries
of the user, order and product PUT handlers.

Conventions: the relational store is a record of lists of rows; JWT
tokens are a signed-structure datatype with an optional absolute
expiry; bcrypt `compare` is an abstract parameter; SQL NULL is Option.
-/

set_option autoImplicit false

namespace Shop

/-! ## JSON web tokens (jsonwebtoken, as used by helper/helper.js) -/

/-- Claims carried by a signed token: id always, email/role only on
access tokens (refresh tokens carry the id alone, so the other claims
are optional, i.e. `undefined` in JS). -/
structure Claims where
  id : Nat
  email : Option String
  role : Option String
deriving DecidableEq

/-- A bearer token: either a well-formed structure signed with a secret,
carrying an optional absolute expiry instant (`exp` claim, absent when
`jwt.sign` is called without `expiresIn`), or garbage bytes. -/
inductive Token where
  | signed (claims : Claims) (secret : String) (exp : Option Nat)
  | malformed
deriving DecidableEq

/-- Verification failure: expiry is a distinct error from every other
failure, mirroring the distinct `TokenExpiredError` of jsonwebtoken;
other failures carry the library reason text. -/
inductive JwtError where
  | expired
  | invalid (reason : String)
deriving DecidableEq

/-- Result of `jwt.verify`: the decoded claims, or a thrown error. -/
inductive JwtResult where
  | ok (claims : Claims)
  | err (e : JwtError)
deriving DecidableEq

/-- JS `String.prototype.toLowerCase` on the ASCII roles this system
uses: lowercase every character. -/
def strLower (s : String) : String :=
  ⟨s.data.map Char.toLower⟩

/-- Semantics of `jwt.verify(token, secret)` evaluated at clock `now`:
malformed input and wrong-secret signatures throw the generic invalid
error, an `exp` claim at or before `now` throws the expiry error,
otherwise the decoded claims are returned. -/
def jwtVerify (tok : Token) (secret : String) (now : Nat) : JwtResult :=
  match tok with
  | .malformed => .err (.invalid "jwt malformed")
  | .signed c s e =>
    if s = secret then
      match e with
      | some t => if t ≤ now then .err .expired else .ok c
      | none => .ok c
    else .err (.invalid "invalid signature")

/-- Configuration surface read from the environment: JWT_SECRET,
JWT_REFRESH_SECRET, JWT_ACCESS_EXPIRATION (a duration in seconds). -/
structure Config where
  accessSecret : String
  refreshSecret : String
  accessExpiration : Nat
deriving DecidableEq

/-- helper/helper.js `generateAccessToken`: sign {id, email, role} with
the access secret and the configured `expiresIn` (absolute expiry
`now + duration`). -/
def generateAccessToken (cfg : Config) (now : Nat) (id : Nat) (email role : String) : Token :=
  .signed ⟨id, some email, some role⟩ cfg.accessSecret (some (now + cfg.accessExpiration))

/-- helper/helper.js `generateAdminToken` / the inline `jwt.sign` of the
login route: sign {id, email, role} with the access secret and no
`expiresIn`, so the token carries no expiry claim. -/
def generateAdminToken (cfg : Config) (id : Nat) (email role : String) : Token :=
  .signed ⟨id, some email, some role⟩ cfg.accessSecret none

/-- helper/helper.js `generateRefreshToken`: sign {id} with the refresh
secret, fixed 7-day expiry (7 * 86400 seconds). -/
def generateRefreshToken (cfg : Config) (now : Nat) (id : Nat) : Token :=
  .signed ⟨id, none, none⟩ cfg.refreshSecret (some (now + 7 * 86400))

/-- helper/helper.js `verifyToken`: `try { return jwt.verify(token, secret) }
catch { return null }` — claims on success, null on any failure. -/
def helperVerifyToken (tok : Token) (secret : String) (now : Nat) : Option Claims :=
  match jwtVerify tok secret now with
  | .ok c => some c
  | .err _ => none

/-! ## Store rows and database state -/

/-- Row of the `users` table. `phone` and `address` are nullable columns
not touched by the PUT handler; `disabled` models the
`_is_active_disabled` flag. -/
structure User where
  id : Nat
  fullname : String
  username : String
  email : String
  password : String
  role : String
  disabled : Bool
  phone : Option String
  address : Option String
deriving DecidableEq

/-- Row of the `tokens` table: one access/refresh pair per insert. -/
structure TokenRow where
  userId : Nat
  token : Token
  refreshToken : Token
  createdAt : Nat
deriving DecidableEq

/-- Row of the `products` table. -/
structure Product where
  id : Nat
  name : String
  price : Int
  size : String
  color : String
  category : String
  available : Bool
deriving DecidableEq

/-- Row of the `orders` table; `customer_id` and `status` are nullable. -/
structure OrderRow where
  id : Nat
  customerId : Option Int
  status : Option String
deriving DecidableEq

/-- The relational store, one list of rows per table the claims touch. -/
structure Db where
  users : List User
  tokens : List TokenRow
  products : List Product
  orders : List OrderRow
deriving DecidableEq

/-- SELECT * FROM users WHERE email = $1 (first row). -/
def findUserByEmail (users : List User) (email : String) : Option User :=
  users.find? (fun u => u.email = email)

/-- SELECT ... FROM users WHERE id = $1 (first row). -/
def findUserById (users : List User) (uid : Nat) : Option User :=
  users.find? (fun u => u.id = uid)

/-- SELECT * FROM orders WHERE id = $1 (first row). -/
def findOrderById (orders : List OrderRow) (oid : Nat) : Option OrderRow :=
  orders.find? (fun o => o.id = oid)

/-- SELECT * FROM products WHERE id = $1 (first row). -/
def findProductById (products : List Product) (pid : Nat) : Option Product :=
  products.find? (fun p => p.id = pid)

/-! ## Login (route/auth.js POST /auth/login) -/

/-- Outcome of POST /auth/login: an error response with its HTTP status
and message, or success carrying the issued token pair. -/
inductive LoginResult where
  | err (status : Nat) (msg : String)
  | ok (userId : Nat) (accessToken : Token) (refreshToken : Token)
deriving DecidableEq

/-- HTTP status of a login outcome (200 on the success path). -/
def LoginResult.status : LoginResult → Nat
  | .err s _ => s
  | .ok _ _ _ => 200

/-- Access token of a successful login outcome. -/
def LoginResult.accessToken? : LoginResult → Option Token
  | .err _ _ => none
  | .ok _ a _ => some a

/-- POST /auth/login. `cmp` abstracts bcrypt `compare(password, hash)`.
Look up the user by email (400 if absent), check the password (400 on
mismatch), issue the access token — the inline non-expiring `jwt.sign`
when the stored role lowercases to "admin", `generateAccessToken`
otherwise — and the refresh token, then DELETE the old token rows for
this user and INSERT the new pair. -/
def login (cfg : Config) (cmp : String → String → Bool) (now : Nat) (db : Db)
    (email password : String) : Db × LoginResult :=
  match findUserByEmail db.users email with
  | none => (db, .err 400 "Email tidak ditemukan")
  | some user =>
    if cmp password user.password = false then
      (db, .err 400 "Password salah")
    else
      let accessToken :=
        if strLower user.role = "admin" then
          Token.signed ⟨user.id, some user.email, some user.role⟩ cfg.accessSecret none
        else
          generateAccessToken cfg now user.id user.email user.role
      let refreshToken := generateRefreshToken cfg now user.id
      let tokens' := db.tokens.filter (fun r => r.userId ≠ user.id)
        ++ [⟨user.id, accessToken, refreshToken, now⟩]
      ({ db with tokens := tokens' }, .ok user.id accessToken refreshToken)

/-- SELECT COUNT(*) FROM tokens WHERE user_id = $1. -/
def countTokensFor (db : Db) (uid : Nat) : Nat :=
  (db.tokens.filter (fun r => r.userId = uid)).length

/-! ## Authorization middleware -/

/-- Outcome of the verifyToken middleware: reject with an HTTP status
and message, or proceed with `req.user = {id, role}` taken from the
decoded claims. -/
inductive AuthOut where
  | reject (status : Nat) (msg : String)
  | ok (id : Nat) (role : Option String)
deriving DecidableEq

/-- middleware/verifyToken.js: 401 when the authorization header is
absent (the "Bearer " prefix stripping leaves the carried token either
way, so the header is modelled as the optional carried token); verify
against JWT_SECRET; a distinct 401 message on expiry, the generic
"Token invalid" 401 with the library reason on any other failure;
attach {id, role} on success. -/
def mwVerifyToken (header : Option Token) (secret : String) (now : Nat) : AuthOut :=
  match header with
  | none => .reject 401 "Token tidak ditemukan atau belum login"
  | some tok =>
    match jwtVerify tok secret now with
    | .ok d => .ok d.id d.role
    | .err .expired => .reject 401 "Token kadaluarsa, silakan login ulang"
    | .err (.invalid r) => .reject 401 ("Token invalid: " ++ r)

/-- Outcome of the verifyRole middleware: reject or call next(). -/
inductive RoleOut where
  | reject (status : Nat) (msg : String)
  | next
deriving DecidableEq

/-- middleware/verifyRole.js: 401 when no authenticated id is attached;
look the user up fresh in the store, 404 when the row is gone; 403 when
`_is_active_disabled` is set; 403 when the lowercased stored role is not
in the allowed list; otherwise next(). -/
def verifyRole (allowedRoles : List String) (db : Db) (reqUserId : Option Nat) : RoleOut :=
  match reqUserId with
  | none => .reject 401 "User tidak valid"
  | some uid =>
    match findUserById db.users uid with
    | none => .reject 404 "User tidak ditemukan"
    | some u =>
      if u.disabled = true then
        .reject 403 "Akun Anda telah dinonaktifkan"
      else if (allowedRoles.contains (strLower u.role)) = false then
        .reject 403 ("Akses ditolak: role " ++ u.role ++ " tidak memiliki izin")
      else
        .next

/-- The two-stage gate as composed in index.js:
`verifyToken` then `verifyRole(allowed)` on every protected route. -/
def protectedGate (allowed : List String) (db : Db) (header : Option Token)
    (secret : String) (now : Nat) : RoleOut :=
  match mwVerifyToken header secret now with
  | .reject s m => .reject s m
  | .ok uid _ => verifyRole allowed db (some uid)

/-! ## Product creation (route/products.js POST /products) -/

/-- The enumerated category set of route/products.js. -/
def ALLOWED_TYPES : List String := ["clothing", "accessory"]

/-- Request body of the product routes; absent fields are `none`
(JS `undefined`). `available` is only read by the PUT handler. -/
structure ProductBody where
  id : Option Int
  name : Option String
  price : Option Int
  size : Option String
  color : Option String
  category : Option String
  available : Option Bool
deriving DecidableEq

/-- JS truthiness of an optional number: absent, 0 (and NaN) are falsy. -/
def truthyInt : Option Int → Bool
  | none => false
  | some n => n ≠ 0

/-- JS truthiness of an optional string: absent and "" are falsy. -/
def truthyStr : Option String → Bool
  | none => false
  | some s => s ≠ ""

/-- route/products.js `validateProductInput`: all of id, name, size,
color, category must be truthy and price non-null, else the
missing-field message; category must be in the enumerated set; price
must be a non-negative number. -/
def validateProductInput (b : ProductBody) : Option String :=
  if !(truthyInt b.id) || !(truthyStr b.name) || !(truthyStr b.size)
      || !(truthyStr b.color) || !(truthyStr b.category) || b.price.isNone then
    some "Semua field wajib diisi"
  else if (ALLOWED_TYPES.contains (b.category.getD "")) = false then
    some "category harus clothing atau accessory"
  else if (b.price.getD 0) < 0 then
    some "price harus angka valid dan tidak negatif"
  else
    none

/-- SELECT COALESCE(MAX(id),0)+1 AS next_id FROM products. -/
def nextProductId (ps : List Product) : Nat :=
  ps.foldr (fun p m => max p.id m) 0 + 1

/-- The statements of the product-creation transaction; a failure oracle
over them models the store throwing at that point. -/
inductive TxStep where
  | beginTx
  | lockTable
  | selectMax
  | insertRow
  | commitTx
deriving DecidableEq

/-- Outcome of POST /products. -/
inductive CreateResult where
  | created (p : Product)
  | badRequest (msg : String)
  | serverError (msg : String)
deriving DecidableEq

/-- route/products.js POST /products: validate (400 on failure); BEGIN,
LOCK TABLE, compute next_id = COALESCE(MAX(id),0)+1, INSERT the row with
the computed id (the client-supplied id is not used) and available=TRUE,
COMMIT. If the store throws at any statement, ROLLBACK: the store is
unchanged and the response is the generic 500. -/
def createProduct (db : Db) (b : ProductBody) (fails : TxStep → Bool) : Db × CreateResult :=
  match validateProductInput b with
  | some msg => (db, .badRequest msg)
  | none =>
    if fails .beginTx || fails .lockTable || fails .selectMax
        || fails .insertRow || fails .commitTx then
      (db, .serverError "Server error")
    else
      let nid := nextProductId db.products
      let row : Product :=
        { id := nid, name := b.name.getD "", price := b.price.getD 0,
          size := b.size.getD "", color := b.color.getD "",
          category := b.category.getD "", available := true }
      ({ db with products := db.products ++ [row] }, .created row)

/-! ## Partial updates (PUT handlers) -/

/-- Body of PUT /users/:id; absent fields are `none` (sent to SQL as
NULL, which COALESCE then discards). -/
structure UserUpdateBody where
  fullname : Option String
  username : Option String
  email : Option String
  role : Option String
  isActiveDisabled : Option Bool
deriving DecidableEq

/-- The SET clause of PUT /users/:id: every column wrapped in
COALESCE(new, old). -/
def applyUserUpdate (u : User) (b : UserUpdateBody) : User :=
  { u with
    fullname := b.fullname.getD u.fullname,
    username := b.username.getD u.username,
    email := b.email.getD u.email,
    role := b.role.getD u.role,
    disabled := b.isActiveDisabled.getD u.disabled }

/-- route/users.js PUT /users/:id: UPDATE ... WHERE id = $6 RETURNING
the row; 404 when no row matched. -/
def updateUser (db : Db) (uid : Nat) (b : UserUpdateBody) : Db × Option User :=
  match findUserById db.users uid with
  | none => (db, none)
  | some u =>
    ({ db with users := db.users.map (fun v => if v.id = uid then applyUserUpdate v b else v) },
      some (applyUserUpdate u b))

/-- Body of PUT /orders/:id. -/
structure OrderUpdateBody where
  customer_id : Option Int
  status : Option String
deriving DecidableEq

/-- route/orders.js PUT /orders/:id: UPDATE orders SET customer_id = $1,
status = $2 WHERE id = $3 RETURNING * — no COALESCE, so an absent body
field is written as NULL; 404 when no row matched. -/
def updateOrder (db : Db) (oid : Nat) (b : OrderUpdateBody) : Db × Option OrderRow :=
  match findOrderById db.orders oid with
  | none => (db, none)
  | some o =>
    let upd : OrderRow := { id := o.id, customerId := b.customer_id, status := b.status }
    ({ db with orders := db.orders.map (fun v =>
        if v.id = oid then { id := v.id, customerId := b.customer_id, status := b.status } else v) },
      some upd)

/-- Outcome of PUT /products/:id. -/
inductive PutResult where
  | badRequest (msg : String)
  | notFound
  | ok (p : Product)
deriving DecidableEq

/-- route/products.js PUT /products/:id: the body is validated with the
same `validateProductInput` (so every create-time field must be
present); 404 when the row is absent; otherwise UPDATE SET name=$1,
price=$2, size=$3, color=$4, category=$5,
available=COALESCE($6, available). -/
def updateProduct (db : Db) (pid : Nat) (b : ProductBody) : Db × PutResult :=
  match validateProductInput b with
  | some msg => (db, .badRequest msg)
  | none =>
    match findProductById db.products pid with
    | none => (db, .notFound)
    | some p =>
      let upd : Product :=
        { id := p.id, name := b.name.getD "", price := b.price.getD 0,
          size := b.size.getD "", color := b.color.getD "",
          category := b.category.getD "", available := b.available.getD p.available }
      ({ db with products := db.products.map (fun v =>
          if v.id = pid then
            { id := v.id, name := b.name.getD "", price := b.price.getD 0,
              size := b.size.getD "", color := b.color.getD "",
              category := b.category.getD "", available := b.available.getD v.available }
          else v) },
        .ok upd)

/-! ## Sample values used by witnesses and counterexamples -/

/-- A password check that a witness can evaluate: the stored hash is the
password itself and bcrypt compare is string equality. -/
def cmpEq : String → String → Bool := fun a b => a = b

/-- A configuration with one-hour access expiry. -/
def cfgW : Config := { accessSecret := "s", refreshSecret := "r", accessExpiration := 3600 }

/-- An admin user row (uppercase role, exercising the case-insensitive
comparison). -/
def wAdmin : User :=
  { id := 1
    fullname := "A"
    username := "a"
    email := "a@x.com"
    password := "h"
    role := "ADMIN"
    disabled := false
    phone := none
    address := none }

/-- A cashier user row. -/
def wCashier : User :=
  { id := 2
    fullname := "B"
    username := "b"
    email := "b@x.com"
    password := "k"
    role := "cashier"
    disabled := false
    phone := some "081"
    address := some "Jl. Mawar" }

/-- A disabled cashier user row. -/
def wBanned : User :=
  { id := 3
    fullname := "C"
    username := "c"
    email := "c@x.com"
    password := "m"
    role := "cashier"
    disabled := true
    phone := none
    address := none }

/-- A store with the three sample users and one stale token row. -/
def wDb : Db :=
  { users := [wAdmin, wCashier, wBanned]
    tokens := [{ userId := 1, token := Token.malformed, refreshToken := Token.malformed, createdAt := 0 }]
    products := []
    orders := [] }

/-- A valid product-creation body (client id 7, later overridden). -/
def wBody : ProductBody :=
  { id := some 7
    name := some "shirt"
    price := some 10
    size := some "M"
    color := some "red"
    category := some "clothing"
    available := none }

/-- A store whose product table holds identifiers 3 and 9. -/
def wDbP : Db :=
  { users := []
    tokens := []
    products := [{ id := 3, name := "cap", price := 5, size := "S", color := "blue",
                   category := "accessory", available := true },
                 { id := 9, name := "tee", price := 8, size := "L", color := "green",
                   category := "clothing", available := false }]
    orders := [] }

/-- A store with one order whose status is "paid". -/
def dbOrd : Db :=
  { users := []
    tokens := []
    products := []
    orders := [{ id := 1, customerId := some 1, status := some "paid" }] }

end Shop

namespace Shop

/-! ## Helper lemmas -/

/-- Every branch of login leaves the users table untouched. -/
theorem login_users_eq (cfg : Config) (cmp : String → String → Bool) (now : Nat)
    (db : Db) (email password : String) :
    ((login cfg cmp now db email password).1).users = db.users := by
  unfold login
  cases h : findUserByEmail db.users email with
  | none => rfl
  | some u =>
    by_cases hp : cmp password u.password = false <;> simp [hp]

/-- On a successful login, the stored token rows become the old rows of
other users plus one fresh row for this user. -/
theorem login_tokens_shape (cfg : Config) (cmp : String → String → Bool) (now : Nat)
    (db : Db) (email password : String) (u : User)
    (hu : findUserByEmail db.users email = some u)
    (hp : cmp password u.password = true) :
    ∃ row : TokenRow, row.userId = u.id ∧
      ((login cfg cmp now db email password).1).tokens
        = db.tokens.filter (fun r => r.userId ≠ u.id) ++ [row] := by
  unfold login
  rw [hu]
  simp only [hp]
  by_cases h : strLower u.role = "admin" <;> simp [h]

/-- Rows of other users never pass the user-id filter again. -/
theorem filter_ne_then_eq (l : List TokenRow) (uid : Nat) :
    (l.filter (fun r => r.userId ≠ uid)).filter (fun r => r.userId = uid) = [] := by
  induction l with
  | nil => rfl
  | cons a t ih =>
    by_cases h : a.userId = uid <;> simp [List.filter_cons, h, ih]

/-- Any successful login leaves exactly one token row for the user. -/
theorem login_success_count (cfg : Config) (cmp : String → String → Bool) (now : Nat)
    (db : Db) (email password : String) (u : User)
    (hu : findUserByEmail db.users email = some u)
    (hp : cmp password u.password = true) :
    countTokensFor (login cfg cmp now db email password).1 u.id = 1 := by
  obtain ⟨row, hrow, hshape⟩ := login_tokens_shape cfg cmp now db email password u hu hp
  unfold countTokensFor
  rw [hshape, List.filter_append, filter_ne_then_eq]
  simp [List.filter_cons, hrow]

/-! ## Claim C1 -/

/-- Claim C1: on every successful login, a stored role that lowercases
to "admin" yields an access token with no expiry claim, which the
verifier never reports expired at any time; any other role yields a
token whose expiry claim is the configured duration from now, reported
expired at every time from that instant on. -/
theorem login_admin_token_no_expiry_c1
    (cfg : Config) (cmp : String → String → Bool) (now : Nat) (db : Db)
    (email password : String) (u : User)
    (hu : findUserByEmail db.users email = some u)
    (hp : cmp password u.password = true) :
    ∃ tok, ((login cfg cmp now db email password).2).accessToken? = some tok
      ∧ (strLower u.role = "admin" →
          tok = Token.signed ⟨u.id, some u.email, some u.role⟩ cfg.accessSecret none
          ∧ ∀ t, jwtVerify tok cfg.accessSecret t ≠ .err .expired)
      ∧ (strLower u.role ≠ "admin" →
          tok = Token.signed ⟨u.id, some u.email, some u.role⟩ cfg.accessSecret
              (some (now + cfg.accessExpiration))
          ∧ ∀ t, now + cfg.accessExpiration ≤ t →
              jwtVerify tok cfg.accessSecret t = .err .expired) := by
  by_cases h : strLower u.role = "admin"
  · refine ⟨Token.signed ⟨u.id, some u.email, some u.role⟩ cfg.accessSecret none, ?_, ?_, ?_⟩
    · simp [login, hu, hp, h, LoginResult.accessToken?]
    · exact fun _ => ⟨rfl, fun t => by simp [jwtVerify]⟩
    · exact fun h2 => absurd h h2
  · refine ⟨Token.signed ⟨u.id, some u.email, some u.role⟩ cfg.accessSecret
        (some (now + cfg.accessExpiration)), ?_, ?_, ?_⟩
    · simp [login, hu, hp, h, LoginResult.accessToken?, generateAccessToken]
    · exact fun h2 => absurd h2 h
    · exact fun _ => ⟨rfl, fun t ht => by simp [jwtVerify, ht]⟩

/-- Witness for C1: the admin user of the sample store gets a token
with no expiry claim. -/
theorem login_admin_token_no_expiry_c1_witness :
    ∃ tok, ((login cfgW cmpEq 0 wDb "a@x.com" "h").2).accessToken? = some tok
      ∧ (strLower wAdmin.role = "admin" →
          tok = Token.signed ⟨wAdmin.id, some wAdmin.email, some wAdmin.role⟩ cfgW.accessSecret none
          ∧ ∀ t, jwtVerify tok cfgW.accessSecret t ≠ .err .expired)
      ∧ (strLower wAdmin.role ≠ "admin" →
          tok = Token.signed ⟨wAdmin.id, some wAdmin.email, some wAdmin.role⟩ cfgW.accessSecret
              (some (0 + cfgW.accessExpiration))
          ∧ ∀ t, 0 + cfgW.accessExpiration ≤ t →
              jwtVerify tok cfgW.accessSecret t = .err .expired) :=
  login_admin_token_no_expiry_c1 cfgW cmpEq 0 wDb "a@x.com" "h" wAdmin (by decide) (by decide)

/-! ## Claim C3 -/

/-- Claim C3: a successful login leaves exactly one token-pair row for
the user whatever was stored before, and a second successful login by
the same user still leaves exactly one. -/
theorem login_replaces_token_pair_c3
    (cfg : Config) (cmp : String → String → Bool) (now now2 : Nat) (db : Db)
    (email password : String) (u : User)
    (hu : findUserByEmail db.users email = some u)
    (hp : cmp password u.password = true) :
    countTokensFor (login cfg cmp now db email password).1 u.id = 1
    ∧ countTokensFor
        (login cfg cmp now2 ((login cfg cmp now db email password).1) email password).1 u.id = 1 := by
  refine ⟨login_success_count cfg cmp now db email password u hu hp, ?_⟩
  apply login_success_count cfg cmp now2 _ email password u _ hp
  rw [login_users_eq]
  exact hu

/-- Witness for C3: two logins by the sample admin (who starts with a
stale token row) end with exactly one row. -/
theorem login_replaces_token_pair_c3_witness :
    countTokensFor (login cfgW cmpEq 0 wDb "a@x.com" "h").1 wAdmin.id = 1
    ∧ countTokensFor
        (login cfgW cmpEq 9 ((login cfgW cmpEq 0 wDb "a@x.com" "h").1) "a@x.com" "h").1 wAdmin.id = 1 :=
  login_replaces_token_pair_c3 cfgW cmpEq 0 9 wDb "a@x.com" "h" wAdmin (by decide) (by decide)

/-! ## Claim C5 -/

/-- Claim C5 (amended): an unknown email fails with HTTP 400 and the
missing-email message, and a known email with a mismatched password
fails with HTTP 400 and the wrong-password message; the store is
unchanged in both cases. -/
theorem login_bad_credentials_c5_amended
    (cfg : Config) (cmp : String → String → Bool) (now : Nat) (db : Db)
    (email password : String) :
    (findUserByEmail db.users email = none →
      login cfg cmp now db email password = (db, .err 400 "Email tidak ditemukan"))
    ∧ (∀ u, findUserByEmail db.users email = some u → cmp password u.password = false →
      login cfg cmp now db email password = (db, .err 400 "Password salah")) := by
  constructor
  · intro h
    simp [login, h]
  · intro u hu hp
    simp [login, hu, hp]

/-- Witness for the amended C5 on the sample store. -/
theorem login_bad_credentials_c5_amended_witness :
    login cfgW cmpEq 0 wDb "ghost@x.com" "p" = (wDb, .err 400 "Email tidak ditemukan")
    ∧ login cfgW cmpEq 0 wDb "a@x.com" "wrong" = (wDb, .err 400 "Password salah") :=
  ⟨(login_bad_credentials_c5_amended cfgW cmpEq 0 wDb "ghost@x.com" "p").1 (by decide),
   (login_bad_credentials_c5_amended cfgW cmpEq 0 wDb "a@x.com" "wrong").2 wAdmin (by decide) (by decide)⟩

/-- Counterexample for C5 as stated: both failure paths answer HTTP 400,
not 404 and not 401. -/
theorem login_statuses_c5_counterexample :
    ((login cfgW cmpEq 0 wDb "ghost@x.com" "p").2 = .err 400 "Email tidak ditemukan"
      ∧ (login cfgW cmpEq 0 wDb "ghost@x.com" "p").2.status ≠ 404)
    ∧ ((login cfgW cmpEq 0 wDb "a@x.com" "wrong").2 = .err 400 "Password salah"
      ∧ (login cfgW cmpEq 0 wDb "a@x.com" "wrong").2.status ≠ 401) := by
  decide

/-! ## Claim C8 -/

/-- Claim C8 (amended): the helper verify returns the decoded claims on
success and none, without throwing, on any failing input; the result
does not distinguish an expired token from an otherwise invalid one. -/
theorem helperVerifyToken_c8_amended (tok : Token) (secret : String) (now : Nat) :
    (∀ c, jwtVerify tok secret now = .ok c → helperVerifyToken tok secret now = some c)
    ∧ (∀ e, jwtVerify tok secret now = .err e → helperVerifyToken tok secret now = none) := by
  constructor <;> intro x h <;> simp [helperVerifyToken, h]

/-- Witness for the amended C8: a live token decodes, an expired one
yields none. -/
theorem helperVerifyToken_c8_amended_witness :
    helperVerifyToken (Token.signed ⟨2, some "b@x.com", some "cashier"⟩ "s" (some 50)) "s" 10
      = some ⟨2, some "b@x.com", some "cashier"⟩
    ∧ helperVerifyToken (Token.signed ⟨2, some "b@x.com", some "cashier"⟩ "s" (some 50)) "s" 99 = none :=
  ⟨(helperVerifyToken_c8_amended (Token.signed ⟨2, some "b@x.com", some "cashier"⟩ "s" (some 50)) "s" 10).1
      ⟨2, some "b@x.com", some "cashier"⟩ (by decide),
   (helperVerifyToken_c8_amended (Token.signed ⟨2, some "b@x.com", some "cashier"⟩ "s" (some 50)) "s" 99).2
      .expired (by decide)⟩

/-- Counterexample for C8 as stated: an expired token and a malformed
token produce the same helper result (none), so the caller cannot tell
them apart even though the underlying verification errors differ. -/
theorem helperVerifyToken_c8_counterexample :
    jwtVerify (Token.signed ⟨1, some "a@x.com", some "cashier"⟩ "s" (some 10)) "s" 100 = .err .expired
    ∧ jwtVerify Token.malformed "s" 100 = .err (.invalid "jwt malformed")
    ∧ helperVerifyToken (Token.signed ⟨1, some "a@x.com", some "cashier"⟩ "s" (some 10)) "s" 100 = none
    ∧ helperVerifyToken Token.malformed "s" 100 = none := by
  decide

/-! ## Maximum-identifier lemmas for product creation -/

/-- Every stored identifier is bounded by the folded maximum. -/
theorem mem_id_le_foldr (ps : List Product) :
    ∀ p ∈ ps, p.id ≤ ps.foldr (fun q m => max q.id m) 0 := by
  induction ps with
  | nil => intro p hp; cases hp
  | cons a t ih =>
    intro p hp
    rcases List.mem_cons.mp hp with rfl | h
    · exact Nat.le_max_left _ _
    · exact Nat.le_trans (ih p h) (Nat.le_max_right _ _)

/-- On a non-empty table the folded maximum is one of the stored
identifiers. -/
theorem foldr_max_mem (ps : List Product) (h : ps ≠ []) :
    ∃ p ∈ ps, ps.foldr (fun q m => max q.id m) 0 = p.id := by
  induction ps with
  | nil => exact absurd rfl h
  | cons a t ih =>
    by_cases ht : t = []
    · subst ht
      exact ⟨a, List.mem_cons_self a [], by simp⟩
    · obtain ⟨p, hm, he⟩ := ih ht
      rcases Nat.le_total (t.foldr (fun q m => max q.id m) 0) a.id with hle | hle
      · refine ⟨a, List.mem_cons_self _ _, ?_⟩
        rw [List.foldr_cons, Nat.max_eq_left hle]
      · refine ⟨p, List.mem_cons_of_mem _ hm, ?_⟩
        rw [List.foldr_cons, Nat.max_eq_right hle, he]

/-- Validation never looks at the value of a truthy client id: replacing
it with any non-zero number keeps a valid body valid. -/
theorem validateProductInput_ignores_id (b : ProductBody) (j : Int) (hj : j ≠ 0)
    (hv : validateProductInput b = none) :
    validateProductInput { b with id := some j } = none := by
  have hjt : truthyInt (some j) = true := by simp [truthyInt, hj]
  unfold validateProductInput at hv ⊢
  by_cases h1 : (!(truthyInt b.id) || !(truthyStr b.name) || !(truthyStr b.size)
      || !(truthyStr b.color) || !(truthyStr b.category) || b.price.isNone) = true
  · simp [h1] at hv
  · have hfalse := Bool.eq_false_iff.mpr h1
    simp only [Bool.or_eq_false_iff] at hfalse
    obtain ⟨⟨⟨⟨⟨ha, hb⟩, hc⟩, hd⟩, he⟩, hf⟩ := hfalse
    simp only [ha, hjt, hb, hc, hd, he, hf, Bool.not_true, Bool.or_self, Bool.or_false,
      Bool.false_or] at hv ⊢
    exact hv

/-! ## Claim C2 -/

/-- Claim C2: a valid creation request on a store where no statement
fails inserts exactly one row whose identifier is the successor of the
maximum stored identifier (1 on an empty table), with availability set,
and the inserted row is the same whatever non-zero id the client sent. -/
theorem createProduct_next_id_c2
    (db : Db) (b : ProductBody) (fails : TxStep → Bool)
    (hv : validateProductInput b = none)
    (hf : ∀ s, fails s = false) :
    ∃ row : Product,
      createProduct db b fails = ({ db with products := db.products ++ [row] }, .created row)
      ∧ row.id = nextProductId db.products
      ∧ (∀ p ∈ db.products, p.id < row.id)
      ∧ (db.products = [] → row.id = 1)
      ∧ (db.products ≠ [] → ∃ p ∈ db.products, row.id = p.id + 1)
      ∧ row.available = true
      ∧ (∀ j : Int, j ≠ 0 →
          createProduct db { b with id := some j } fails = createProduct db b fails) := by
  have hc : (fails .beginTx || fails .lockTable || fails .selectMax
      || fails .insertRow || fails .commitTx) = false := by
    simp [hf]
  refine ⟨{ id := nextProductId db.products, name := b.name.getD "",
            price := b.price.getD 0, size := b.size.getD "", color := b.color.getD "",
            category := b.category.getD "", available := true }, ?_, rfl, ?_, ?_, ?_, rfl, ?_⟩
  · unfold createProduct
    rw [hv]
    simp [hc]
  · intro p hp
    exact Nat.lt_succ_of_le (mem_id_le_foldr db.products p hp)
  · intro h0
    simp [nextProductId, h0]
  · intro hne
    obtain ⟨p, hm, he⟩ := foldr_max_mem db.products hne
    exact ⟨p, hm, by simp [nextProductId, he]⟩
  · intro j hj
    have hv' := validateProductInput_ignores_id b j hj hv
    unfold createProduct
    rw [hv, hv']

/-- Witness for C2 on a table holding identifiers 3 and 9: the new
identifier is 10. -/
theorem createProduct_next_id_c2_witness :
    validateProductInput wBody = none
    ∧ ∃ row : Product,
      createProduct wDbP wBody (fun _ => false)
        = ({ wDbP with products := wDbP.products ++ [row] }, .created row)
      ∧ row.id = nextProductId wDbP.products
      ∧ (∀ p ∈ wDbP.products, p.id < row.id)
      ∧ (wDbP.products = [] → row.id = 1)
      ∧ (wDbP.products ≠ [] → ∃ p ∈ wDbP.products, row.id = p.id + 1)
      ∧ row.available = true
      ∧ (∀ j : Int, j ≠ 0 →
          createProduct wDbP { wBody with id := some j } (fun _ => false)
            = createProduct wDbP wBody (fun _ => false)) :=
  ⟨by decide, createProduct_next_id_c2 wDbP wBody (fun _ => false) (by decide) (fun _ => rfl)⟩

/-! ## Claim C7 -/

/-- Claim C7: if the store throws at any statement of the creation
transaction of a validated request, the handler answers the generic
server error and the store is exactly the pre-request store. -/
theorem createProduct_rollback_c7
    (db : Db) (b : ProductBody) (fails : TxStep → Bool)
    (hv : validateProductInput b = none)
    (hf : fails .beginTx = true ∨ fails .lockTable = true ∨ fails .selectMax = true
      ∨ fails .insertRow = true ∨ fails .commitTx = true) :
    createProduct db b fails = (db, .serverError "Server error") := by
  have hc : (fails .beginTx || fails .lockTable || fails .selectMax
      || fails .insertRow || fails .commitTx) = true := by
    rcases hf with h | h | h | h | h <;> simp [h]
  unfold createProduct
  rw [hv]
  simp [hc]

/-- Witness for C7: the INSERT throws and the sample store is
unchanged. -/
theorem createProduct_rollback_c7_witness :
    createProduct wDbP wBody (fun s => s = TxStep.insertRow) = (wDbP, .serverError "Server error") :=
  createProduct_rollback_c7 wDbP wBody (fun s => s = TxStep.insertRow) (by decide)
    (Or.inr (Or.inr (Or.inr (Or.inl (by decide)))))

/-! ## Claim C4 -/

/-- Claim C4: the role stage decides from the stored row, not the token:
a set disabled flag answers 403 with the disabled message; an enabled
row whose lowercased role is outside the allowed list answers 403 with
the role message; and through the composed gate any token that decodes
to the user's id — whatever role claim it carries — is rejected the same
way once the stored row is disabled or has a non-permitted role. -/
theorem verifyRole_fresh_store_c4
    (allowed : List String) (db : Db) (uid : Nat) (u : User)
    (h : findUserById db.users uid = some u) :
    (u.disabled = true →
      verifyRole allowed db (some uid) = .reject 403 "Akun Anda telah dinonaktifkan")
    ∧ (u.disabled = false → allowed.contains (strLower u.role) = false →
      verifyRole allowed db (some uid)
        = .reject 403 ("Akses ditolak: role " ++ u.role ++ " tidak memiliki izin"))
    ∧ (∀ tok secret now c, jwtVerify tok secret now = .ok c → c.id = uid →
        u.disabled = true →
        protectedGate allowed db (some tok) secret now
          = .reject 403 "Akun Anda telah dinonaktifkan")
    ∧ (∀ tok secret now c, jwtVerify tok secret now = .ok c → c.id = uid →
        u.disabled = false → allowed.contains (strLower u.role) = false →
        protectedGate allowed db (some tok) secret now
          = .reject 403 ("Akses ditolak: role " ++ u.role ++ " tidak memiliki izin")) := by
  refine ⟨?_, ?_, ?_, ?_⟩
  · intro hd
    simp [verifyRole, h, hd]
  · intro hd hr
    simp [verifyRole, h, hd, hr]
    simpa using hr
  · intro tok secret now c hok hid hd
    subst hid
    simp [protectedGate, mwVerifyToken, hok, verifyRole, h, hd]
  · intro tok secret now c hok hid hd hr
    subst hid
    simp [protectedGate, mwVerifyToken, hok, verifyRole, h, hd, hr]
    simpa using hr

/-- Witness for C4: a still-valid token of the disabled sample user is
rejected 403 by the composed gate. -/
theorem verifyRole_fresh_store_c4_witness :
    verifyRole ["cashier", "admin"] wDb (some 3) = .reject 403 "Akun Anda telah dinonaktifkan"
    ∧ protectedGate ["cashier", "admin"] wDb
        (some (Token.signed ⟨3, some "c@x.com", some "cashier"⟩ "s" (some 99))) "s" 0
        = .reject 403 "Akun Anda telah dinonaktifkan" :=
  ⟨(verifyRole_fresh_store_c4 ["cashier", "admin"] wDb 3 wBanned (by decide)).1 (by decide),
   (verifyRole_fresh_store_c4 ["cashier", "admin"] wDb 3 wBanned (by decide)).2.2.1
      (Token.signed ⟨3, some "c@x.com", some "cashier"⟩ "s" (some 99)) "s" 0
      ⟨3, some "c@x.com", some "cashier"⟩ (by decide) (by decide) (by decide)⟩

/-! ## Claim C6 -/

/-- The generic verification error only ever carries one of the two
library reasons. -/
theorem jwtVerify_invalid_reason (tok : Token) (secret : String) (now : Nat) (r : String)
    (h : jwtVerify tok secret now = .err (.invalid r)) :
    r = "jwt malformed" ∨ r = "invalid signature" := by
  cases tok with
  | malformed =>
    simp [jwtVerify] at h
    exact Or.inl h.symm
  | signed c s e =>
    by_cases hs : s = secret
    · subst hs
      cases e with
      | none => simp [jwtVerify] at h
      | some t =>
        by_cases ht : t ≤ now <;> simp [jwtVerify, ht] at h
    · simp [jwtVerify, hs] at h
      exact Or.inr h.symm

/-- Claim C6: the token stage answers 401 with its no-token message on a
missing header, 401 with the dedicated expiry message when verification
reports expiry, 401 with a message distinct from the expiry one on every
other verification failure, and attaches {id, role} from the decoded
claims on success. -/
theorem mwVerifyToken_stage_c6 (secret : String) (now : Nat) :
    mwVerifyToken none secret now = .reject 401 "Token tidak ditemukan atau belum login"
    ∧ (∀ tok, jwtVerify tok secret now = .err .expired →
        mwVerifyToken (some tok) secret now = .reject 401 "Token kadaluarsa, silakan login ulang")
    ∧ (∀ tok r, jwtVerify tok secret now = .err (.invalid r) →
        mwVerifyToken (some tok) secret now = .reject 401 ("Token invalid: " ++ r)
        ∧ ("Token invalid: " ++ r) ≠ "Token kadaluarsa, silakan login ulang")
    ∧ (∀ tok c, jwtVerify tok secret now = .ok c →
        mwVerifyToken (some tok) secret now = .ok c.id c.role) := by
  refine ⟨rfl, ?_, ?_, ?_⟩
  · intro tok h
    simp [mwVerifyToken, h]
  · intro tok r h
    refine ⟨by simp [mwVerifyToken, h], ?_⟩
    rcases jwtVerify_invalid_reason tok secret now r h with rfl | rfl <;> decide
  · intro tok c h
    simp [mwVerifyToken, h]

/-- Witness for C6: the three rejection shapes and the success shape at
concrete tokens. -/
theorem mwVerifyToken_stage_c6_witness :
    mwVerifyToken none "s" 0 = .reject 401 "Token tidak ditemukan atau belum login"
    ∧ mwVerifyToken (some (Token.signed ⟨2, none, some "cashier"⟩ "s" (some 3))) "s" 5
        = .reject 401 "Token kadaluarsa, silakan login ulang"
    ∧ mwVerifyToken (some Token.malformed) "s" 0 = .reject 401 ("Token invalid: " ++ "jwt malformed")
    ∧ mwVerifyToken (some (Token.signed ⟨2, none, some "cashier"⟩ "s" (some 3))) "s" 1
        = .ok 2 (some "cashier") :=
  ⟨(mwVerifyToken_stage_c6 "s" 0).1,
   (mwVerifyToken_stage_c6 "s" 5).2.1 _ (by decide),
   ((mwVerifyToken_stage_c6 "s" 0).2.2.1 Token.malformed "jwt malformed" (by decide)).1,
   (mwVerifyToken_stage_c6 "s" 1).2.2.2 _ ⟨2, none, some "cashier"⟩ (by decide)⟩

/-! ## Claim C10 -/

/-- Claim C10: when the authenticated id has no stored row any more, the
role stage answers 404 with the user-not-found message (so neither 403
nor next()). -/
theorem verifyRole_missing_user_c10 (allowed : List String) (db : Db) (uid : Nat)
    (h : findUserById db.users uid = none) :
    verifyRole allowed db (some uid) = .reject 404 "User tidak ditemukan" := by
  simp [verifyRole, h]

/-- Witness for C10: id 99 has no row in the sample store. -/
theorem verifyRole_missing_user_c10_witness :
    verifyRole ["admin"] wDb (some 99) = .reject 404 "User tidak ditemukan" :=
  verifyRole_missing_user_c10 ["admin"] wDb 99 (by decide)

/-! ## Claim C9 -/

/-- Claim C9 (amended): the user update is partial — every field the
body leaves unset keeps its stored value and the untouched columns are
unchanged, as are the other rows; the order update instead writes the
body values over both columns (NULL when unset); the product update
rejects bodies with missing fields, with only the availability flag
optional, preserved when unset. -/
theorem updateUser_coalesce_c9_amended
    (db : Db) (uid : Nat) (b : UserUpdateBody) (u : User)
    (h : findUserById db.users uid = some u) :
    (∃ u', (updateUser db uid b).2 = some u'
      ∧ (b.fullname = none → u'.fullname = u.fullname)
      ∧ (b.username = none → u'.username = u.username)
      ∧ (b.email = none → u'.email = u.email)
      ∧ (b.role = none → u'.role = u.role)
      ∧ (b.isActiveDisabled = none → u'.disabled = u.disabled)
      ∧ u'.id = u.id ∧ u'.password = u.password ∧ u'.phone = u.phone ∧ u'.address = u.address)
    ∧ (∀ v ∈ db.users, v.id ≠ uid → v ∈ ((updateUser db uid b).1).users)
    ∧ (∀ db2 oid ob o, findOrderById db2.orders oid = some o →
        (updateOrder db2 oid ob).2
          = some { id := o.id, customerId := ob.customer_id, status := ob.status })
    ∧ (∀ db3 pid pb p, validateProductInput pb = none →
        findProductById db3.products pid = some p → pb.available = none →
        ∃ p', (updateProduct db3 pid pb).2 = .ok p' ∧ p'.available = p.available) := by
  refine ⟨⟨applyUserUpdate u b, ?_, ?_, ?_, ?_, ?_, ?_, rfl, rfl, rfl, rfl⟩, ?_, ?_, ?_⟩
  · simp [updateUser, h]
  · intro hb
    simp [applyUserUpdate, hb]
  · intro hb
    simp [applyUserUpdate, hb]
  · intro hb
    simp [applyUserUpdate, hb]
  · intro hb
    simp [applyUserUpdate, hb]
  · intro hb
    simp [applyUserUpdate, hb]
  · intro v hv hne
    simp only [updateUser, h]
    exact List.mem_map.mpr ⟨v, hv, by simp [hne]⟩
  · intro db2 oid ob o ho
    simp [updateOrder, ho]
  · intro db3 pid pb p hval hfind havail
    refine ⟨{ id := p.id, name := pb.name.getD "", price := pb.price.getD 0,
              size := pb.size.getD "", color := pb.color.getD "",
              category := pb.category.getD "", available := pb.available.getD p.available }, ?_, ?_⟩
    · simp [updateProduct, hval, hfind]
    · simp [havail]

/-- Witness for the amended C9: updating only the cashier's fullname
keeps every other column, and an order update with status unset. -/
theorem updateUser_coalesce_c9_amended_witness :
    ∃ u', (updateUser wDb 2 { fullname := some "B2", username := none, email := none,
                              role := none, isActiveDisabled := none }).2 = some u'
      ∧ u'.username = wCashier.username ∧ u'.email = wCashier.email
      ∧ u'.role = wCashier.role ∧ u'.disabled = wCashier.disabled
      ∧ u'.phone = wCashier.phone ∧ u'.password = wCashier.password := by
  obtain ⟨u', h1, _, h3, h4, h5, h6, _, h8, h9, _⟩ :=
    (updateUser_coalesce_c9_amended wDb 2
      { fullname := some "B2", username := none, email := none,
        role := none, isActiveDisabled := none }
      wCashier (by decide)).1
  exact ⟨u', h1, h3 rfl, h4 rfl, h5 rfl, h6 rfl, h9, h8⟩

/-- Counterexample for C9 as stated: an order update that leaves the
status unset does not preserve the stored status "paid"; the column is
overwritten with NULL. -/
theorem updateOrder_c9_counterexample :
    (dbOrd.orders.map OrderRow.status = [some "paid"])
    ∧ ((updateOrder dbOrd 1 { customer_id := some 2, status := none }).1.orders
        = [{ id := 1, customerId := some 2, status := none }])
    ∧ ((updateOrder dbOrd 1 { customer_id := some 2, status := none }).1.orders.map OrderRow.status
        = [none])
    ∧ ((none : Option String) ≠ some "paid") := by
  decide

end Shop
